import Mathlib

/-!
Verification of the milmi repository (geocode_milmi.py and load_milmi.py),
a geocoding delta pipeline plus a spreadsheet ingestion pipeline.

The Python sources are shallowly embedded below: dataframe column
operations become operations on explicit column lists and rows, nullable
pandas values become `Option`, exceptions become `Except`, and the
sequential tail of `main` (validate, audit, conditional persist) becomes a
function returning a result together with a trace of events.
-/

set_option autoImplicit false

namespace Milmi

universe u

/-! ### Geography Normalizer (geocode_milmi.py, lines 131-168) -/

/-- `str.zfill(w)`: left-pad with the digit 0 up to width `w`; a string
already at least `w` long is returned unchanged (no truncation). -/
def zfill (w : Nat) (s : String) : String :=
  ⟨List.replicate (w - s.length) '0' ++ s.data⟩

/-- One row of the `geocoded` dataframe entering the normalisation step:
the batch geocoder's response merged with the record's edition date.
Nullable numeric FIPS fragments are the `Int64` values produced by the
`astype` chain at lines 131-144; `lat`/`lon` are nullable coordinates
(their numeric value is irrelevant to the claims, only their presence). -/
structure RespRow where
  id : String
  date : String
  matchtype : Option String
  statefp : Option Nat
  countyfp : Option Nat
  tract : Option Nat
  block : Option Nat
  lat : Option Int
  lon : Option Int
deriving DecidableEq

/-- A point geometry; only construction order (x = lon, y = lat) and
presence matter to the claims. -/
structure Point where
  x : Int
  y : Int
deriving DecidableEq

/-- Modelled from the spec: `gpd.points_from_xy` (line 159) lives in the
external geopandas library, out of scope for the repository; the spec's
Geography Normalizer contract says "Construct `geom` as a point from
`(lon, lat)` in that order; null when coordinates are missing". -/
def points_from_xy (lon lat : Option Int) : Option Point :=
  match lon, lat with
  | some lo, some la => some { x := lo, y := la }
  | _, _ => none

/-- The canonical output row (columns selected at lines 162-168). -/
structure GeocodedRecord where
  id : String
  date : String
  match_type : Option String
  block_geoid : Option String
  geom : Option Point
deriving DecidableEq

/-- `astype(StringDtype)` then `.str.zfill(w)` on a nullable `Int64`
column (lines 139-156): nulls stay null, values are rendered in decimal
and zero-padded. -/
def padFrag (w : Nat) (v : Option Nat) : Option String :=
  v.map (fun n => zfill w (toString n))

/-- pandas `StringDtype` concatenation with `+` (line 160): NA propagates,
so the result is null as soon as either operand is null. -/
def strConcat : Option String → Option String → Option String
  | some a, some b => some (a ++ b)
  | _, _ => none

/-- Lines 131-161: pad the four FIPS fragments to widths 2/3/6/4,
concatenate them into `block_geoid`, build `geom` from `(lon, lat)`, and
rename `matchtype` to `match_type`. -/
def normalize (r : RespRow) : GeocodedRecord :=
  let s := padFrag 2 r.statefp
  let c := padFrag 3 r.countyfp
  let t := padFrag 6 r.tract
  let b := padFrag 4 r.block
  { id := r.id
    date := r.date
    match_type := r.matchtype
    block_geoid := strConcat (strConcat (strConcat s c) t) b
    geom := points_from_xy r.lon r.lat }

/-! ### Schema Validator for employers_geo (geocode_milmi.py, lines 25-41)

`EmployerGeo` marks `id` and `date` non-nullable (total fields in the
embedding), `match_type`/`block_geoid`/`geom` nullable, and attaches the
custom check `correct_len_block`.  pandera checks run with
`ignore_na=True` by default, so null `block_geoid` entries are skipped by
the length check. -/

/-- The `correct_len_block` check on one `block_geoid` cell: a non-null
value must have length exactly 15; nulls are ignored by the check. -/
def correct_len_block (g : Option String) : Bool :=
  match g with
  | none => true
  | some s => s.length == 15

/-- Row-level validity against the `EmployerGeo` schema. -/
def employerGeoValid (rec : GeocodedRecord) : Bool :=
  correct_len_block rec.block_geoid

/-- `EmployerGeo.validate` (line 178): the whole dataset passes only when
every row passes; any violation rejects the entire dataset. -/
def employerGeoValidate (rows : List GeocodedRecord) : Bool :=
  rows.all employerGeoValid

/-! ### Batch Partitioner (geocode_milmi.py, lines 107-111)

`calls = (len(new_providers) // 5000) + 1` followed by
`np.array_split(new_providers, calls)`.  numpy documents `array_split(a, k)`
for an array of length `l` as returning `l % k` sub-arrays of size
`l // k + 1` and the rest of size `l // k`, in that order. -/

/-- The numpy `array_split` size schedule for length `l` into `k` parts. -/
def arraySplitSizes (l k : Nat) : List Nat :=
  (List.range k).map (fun i => if i < l % k then l / k + 1 else l / k)

/-- Cut a list into consecutive chunks of the given sizes. -/
def chunksOfSizes {α : Type u} : List Nat → List α → List (List α)
  | [], _ => []
  | s :: ss, xs => xs.take s :: chunksOfSizes ss (xs.drop s)

/-- `np.array_split(xs, k)` along axis 0. -/
def arraySplit {α : Type u} (k : Nat) (xs : List α) : List (List α) :=
  chunksOfSizes (arraySplitSizes xs.length k) xs

/-- Lines 109-111: the number of calls and the per-call batches. -/
def partitionBatches {α : Type u} (xs : List α) : List (List α) :=
  arraySplit (xs.length / 5000 + 1) xs

/-! ### Dataframes with named columns (for the Delta Selector and the
Geocode Submitter, geocode_milmi.py lines 93-125)

Cell values are strings; only column structure and the id/date keys matter
to the claims. -/

/-- A pandas dataframe: a list of column names and rows of
(column, value) cells. -/
structure DataFrame where
  cols : List String
  rows : List (List (String × String))
deriving DecidableEq

/-- `df.drop(c, axis=1)` (line 115): raises `KeyError` when the column is
absent (pandas default `errors="raise"`). -/
def dropCol (c : String) (df : DataFrame) : Except String DataFrame :=
  if df.cols.contains c then
    Except.ok
      { cols := df.cols.filter (fun x => x ≠ c)
        rows := df.rows.map (fun row => row.filter (fun p => p.1 ≠ c)) }
  else
    Except.error ("KeyError: " ++ c)

/-- `df[[c1, ..., cn]]` (line 122): column projection, `KeyError` when any
requested column is absent. -/
def selectCols (cs : List String) (df : DataFrame) : Except String DataFrame :=
  if cs.all (fun c => df.cols.contains c) then
    Except.ok
      { cols := cs
        rows := df.rows.map (fun row => row.filter (fun p => cs.contains p.1)) }
  else
    Except.error ("KeyError: " ++ String.intercalate ", " (cs.filter (fun c => !df.cols.contains c)))

/-- Look a cell up by column name. -/
def cellOf (row : List (String × String)) (c : String) : Option String :=
  (row.find? (fun p => p.1 = c)).map (fun p => p.2)

/-- `left.merge(right, on=key)` (lines 119-125): inner join on the shared
key column. -/
def mergeOn (left right : DataFrame) (key : String) : DataFrame :=
  { cols := left.cols ++ right.cols.filter (fun c => c ≠ key)
    rows :=
      (left.rows.map (fun lr =>
        (right.rows.filter (fun rr => cellOf rr key = cellOf lr key)).map
          (fun rr => lr ++ rr.filter (fun p => p.1 ≠ key)))).flatten }

/-- `df.rename(columns=m)`: columns absent from the mapping are kept
(pandas ignores missing rename keys by default). -/
def renameCols (m : List (String × String)) (df : DataFrame) : DataFrame :=
  { cols := df.cols.map (fun c =>
      match m.find? (fun p => p.1 = c) with
      | some p => p.2
      | none => c)
    rows := df.rows.map (fun row => row.map (fun cell =>
      match m.find? (fun p => p.1 = cell.1) with
      | some p => (p.2, cell.2)
      | none => cell)) }

/-! ### Delta Selector (geocode_milmi.py, lines 93-102) -/

/-- Database failures, classified by the DB-API 2.0 exception hierarchy
that sqlalchemy re-exports: `ProgrammingError` covers "table not found",
"column not found" and SQL syntax errors; operational and data errors are
distinct classes. -/
inductive DbError
  | relationDoesNotExist
  | undefinedColumn
  | syntaxError
  | operationalError
  | dataError
deriving DecidableEq

/-- Which failures are instances of `sqlalchemy.exc.ProgrammingError`,
the class caught at line 97. -/
def isProgrammingError : DbError → Bool
  | DbError.relationDoesNotExist => true
  | DbError.undefinedColumn => true
  | DbError.syntaxError => true
  | DbError.operationalError => false
  | DbError.dataError => false

/-- Lines 93-102: try the delta query (`new_employers_q`); on
`ProgrammingError`, run the select-all fallback (`all_employers_q`); any
other exception propagates and aborts the run. -/
def deltaSelect (deltaQ : Except DbError DataFrame)
    (allQ : Except DbError DataFrame) : Except DbError DataFrame :=
  match deltaQ with
  | Except.ok df => Except.ok df
  | Except.error e => if isProgrammingError e then allQ else Except.error e

/-! ### Geocode Submitter (geocode_milmi.py, lines 105-125) -/

/-- The columns of the dataframes read at lines 95/102: the SELECT lists
of `new_employers_q` and `all_employers_q` are identical
(`p.id, p.address, p.city, p.state, p.zip_code, p.year`). -/
def queryColumns : List String :=
  ["id", "address", "city", "state", "zip_code", "year"]

/-- The rename mapping at line 105. -/
def renameMap : List (String × String) :=
  [("license_number", "id"), ("address", "street"), ("zip_code", "zip")]

/-- The body of the loop at lines 113-125 for one batch `r`: strip the
`date` column, call the external service on the remainder, then re-merge
the response with `r[["id", "date"]]` on `id`. -/
def processBatch (service : DataFrame → DataFrame) (r : DataFrame) :
    Except String DataFrame := do
  let stripped ← dropCol "date" r
  let resp := service stripped
  let keys ← selectCols ["id", "date"] r
  Except.ok (mergeOn resp keys "id")

/-- Lines 105-125: rename the query result's columns, split it into
batches, and process each batch in order; the first raised `KeyError`
aborts the run. -/
def geocodePhase (service : DataFrame → DataFrame)
    (queryResult : DataFrame) : Except String (List DataFrame) :=
  let np := renameCols renameMap queryResult
  (partitionBatches np.rows).mapM
    (fun batchRows => processBatch service { cols := np.cols, rows := batchRows })

/-! ### Pipeline tail: validate, audit, conditional persist

Both scripts end identically (geocode_milmi.py lines 176-211,
load_milmi.py lines 148-183): validate inside try/except returning -1 on
failure, then `record_metadata` + `db.commit()` on the metadata engine,
then — unless `--metadata_only` — append the validated rows to the target
table.  An exception from the audit block propagates and the data write
never executes. -/

/-- Observable side effects of the tail, in program order. -/
inductive Event
  | auditWrite
  | auditCommit
  | dataWrite
deriving DecidableEq

/-- How a run of the tail ends: `validationFailed` is the `return -1`
path, `auditFailed` is an uncaught exception from the audit block,
`completed` is a normal exit. -/
inductive RunResult
  | validationFailed
  | auditFailed
  | completed
deriving DecidableEq

/-- The common tail of both `main` functions, as a function of whether
validation passes, whether the audit write succeeds, and the
`--metadata_only` flag; returns the outcome and the trace of events that
occurred. -/
def pipelineTail (valid auditOk metadataOnly : Bool) : RunResult × List Event :=
  if valid = false then
    (RunResult.validationFailed, [])
  else if auditOk = false then
    (RunResult.auditFailed, [])
  else if metadataOnly then
    (RunResult.completed, [Event.auditWrite, Event.auditCommit])
  else
    (RunResult.completed, [Event.auditWrite, Event.auditCommit, Event.dataWrite])

/-- The tail of geocode_milmi.py `main`, driven by `EmployerGeo.validate`. -/
def geocodeRunTail (rows : List GeocodedRecord) (auditOk metadataOnly : Bool) :
    RunResult × List Event :=
  pipelineTail (employerGeoValidate rows) auditOk metadataOnly

/-! ### Employer ingestion (load_milmi.py, lines 85-142) -/

/-- One worksheet row after the column rename at lines 101-115: the
fields the transform at lines 116-124 touches.  `Option` is a pandas
null. -/
structure RawEmployer where
  name : Option String
  address : Option String
  employment_size : Option String
  naics : String
deriving DecidableEq

/-- A cleaned employer row (the fields relevant to the claims). -/
structure Employer where
  id : Nat
  name : String
  address : String
  employment_size : String
  naics : String
deriving DecidableEq

/-- `Series.fillna(d)`. -/
def fillna (d : String) : Option String → String
  | none => d
  | some s => s

/-- Lines 116-137 for the row at positional index `i`: fill the
not-available placeholders, truncate NAICS to 6 characters, and take the
worksheet row index as `id` (`reset_index` + rename at lines 136-137). -/
def cleanEmployer (i : Nat) (r : RawEmployer) : Employer :=
  { id := i
    name := fillna "NAME NOT AVAILABLE" r.name
    address := fillna "ADDRESS NOT AVAILABLE" r.address
    employment_size := fillna "SIZE NOT AVAILABLE" r.employment_size
    naics := r.naics.take 6 }

/-- One county worksheet: every row is cleaned and numbered by its
position, starting from 0 for each sheet. -/
def loadCounty (rows : List RawEmployer) : List Employer :=
  rows.enum.map (fun p => cleanEmployer p.1 p.2)

/-- The worksheet names read at lines 87-96. -/
def counties : List String :=
  ["Wayne", "Oakland", "Macomb", "Livingston", "Washtenaw", "St Clair",
   "Calhoun", "Monroe"]

/-- Lines 85-142: load every county sheet from the workbook `wb` and
concatenate (`pd.concat(county_dfs)` keeps each sheet's rows, in sheet
order). -/
def loadAll (wb : String → List RawEmployer) : List Employer :=
  (counties.map (fun c => loadCounty (wb c))).flatten

/-! ### Schema Validator for milmi_employers (load_milmi.py, lines 21-71)

The two percentage thresholds written as floats (`0.03`, `0.10`) are
modelled as the exact rationals 3/100 and 10/100. -/

/-- Lines 41-47: `0 < (name == "NAME NOT AVAILABLE").sum() < 100`. -/
def no_over_filling__name (names : List String) : Bool :=
  decide (0 < names.count "NAME NOT AVAILABLE" ∧
    names.count "NAME NOT AVAILABLE" < 100)

/-- Lines 49-55: fewer than 3% filled-in addresses. -/
def no_over_filling__address (addrs : List String) : Bool :=
  decide (100 * addrs.count "ADDRESS NOT AVAILABLE" < 3 * addrs.length)

/-- Lines 57-62: fewer than 10% filled-in employment sizes. -/
def no_over_filling__emp_size (sizes : List String) : Bool :=
  decide (100 * sizes.count "SIZE NOT AVAILABLE" < 10 * sizes.length)

/-- Lines 64-71: every NAICS code has length 6. -/
def naics_6_digit (codes : List String) : Bool :=
  codes.all (fun s => s.length == 6)

/-- `MILMIEmployers.validate` (line 150): all column checks must pass. -/
def milmiEmployersValidate (rows : List Employer) : Bool :=
  no_over_filling__name (rows.map Employer.name) &&
  no_over_filling__address (rows.map Employer.address) &&
  no_over_filling__emp_size (rows.map Employer.employment_size) &&
  naics_6_digit (rows.map Employer.naics)

/-- The tail of load_milmi.py `main`, driven by `MILMIEmployers.validate`. -/
def employersRunTail (rows : List Employer) (auditOk metadataOnly : Bool) :
    RunResult × List Event :=
  pipelineTail (milmiEmployersValidate rows) auditOk metadataOnly

/-! ### Concrete inputs used by the witnesses -/

/-- A matched geocode response for Michigan (state 26), county 65,
tract 1, block 2, as in the spec's end-to-end example. -/
def respMatched : RespRow :=
  { id := "1", date := "2025-01-01", matchtype := some "Exact"
    statefp := some 26, countyfp := some 65, tract := some 1, block := some 2
    lat := some 42, lon := some (-83) }

/-- An unmatched geocode response: no geography fields at all. -/
def respUnmatched : RespRow :=
  { id := "2", date := "2025-01-01", matchtype := none
    statefp := none, countyfp := none, tract := none, block := none
    lat := none, lon := none }

/-- A one-row delta-selection result with exactly the columns the source
queries produce. -/
def exampleQueryResult : DataFrame :=
  { cols := queryColumns
    rows := [[("id", "1"), ("address", "100 Main St"), ("city", "Lansing"),
              ("state", "MI"), ("zip_code", "48933"), ("year", "2025-01-01")]] }

/-- A geocoded record whose `block_geoid` has only 14 characters. -/
def shortGeoidRecord : GeocodedRecord :=
  { id := "1", date := "2025-01-01", match_type := some "Exact"
    block_geoid := some "26065000001000", geom := none }

/-- One raw employer row with every field present and a real name. -/
def rawNamed : RawEmployer :=
  { name := some "ACME TOOL", address := some "1 Main St"
    employment_size := some "10 to 19", naics := "33271000" }

/-- A workbook in which every county sheet holds the single row
`rawNamed`. -/
def wbOneRowEach : String → List RawEmployer := fun _ => [rawNamed]

/-! ## Helper lemmas -/

theorem zfill_length (w : Nat) (s : String) :
    (zfill w s).length = (w - s.length) + s.length := by
  obtain ⟨l⟩ := s
  simp [zfill]

theorem zfill_length_of_le {w : Nat} {s : String} (h : s.length ≤ w) :
    (zfill w s).length = w := by
  rw [zfill_length]
  omega

theorem chunksOfSizes_length {α : Type u} :
    ∀ (ss : List Nat) (xs : List α), (chunksOfSizes ss xs).length = ss.length
  | [], _ => rfl
  | _ :: ss, xs => congrArg Nat.succ (chunksOfSizes_length ss (xs.drop _))

theorem chunksOfSizes_sum_length {α : Type u} :
    ∀ (ss : List Nat) (xs : List α),
      ((chunksOfSizes ss xs).map List.length).sum = min ss.sum xs.length := by
  intro ss
  induction ss with
  | nil => intro xs; simp [chunksOfSizes]
  | cons s tail ih =>
    intro xs
    simp only [chunksOfSizes, List.map_cons, List.sum_cons, ih (xs.drop s),
      List.length_take, List.length_drop, List.sum_cons]
    omega

theorem arraySplitSizes_length (l k : Nat) : (arraySplitSizes l k).length = k := by
  simp [arraySplitSizes]

theorem sum_range_if (r d : Nat) : ∀ (k : Nat), r ≤ k →
    ((List.range k).map (fun i => if i < r then d + 1 else d)).sum = k * d + r := by
  intro k
  induction k with
  | zero =>
    intro h
    simp only [List.range_zero, List.map_nil, List.sum_nil]
    omega
  | succ n ih =>
    intro h
    rw [List.range_succ, List.map_append, List.sum_append]
    rcases Nat.lt_or_ge n r with hnr | hnr
    · have hr : r = n + 1 := by omega
      subst hr
      have hmap : (List.range n).map (fun i => if i < n + 1 then d + 1 else d)
          = (List.range n).map (fun _ => d + 1) := by
        apply List.map_congr_left
        intro a ha
        have haa : a < n + 1 := Nat.lt_succ_of_lt (List.mem_range.mp ha)
        simp [haa]
      rw [hmap, List.map_const', List.sum_const_nat]
      simp only [List.map_cons, List.map_nil, List.sum_cons, List.sum_nil,
        Nat.lt_succ_self, if_pos, List.length_range]
      ring
    · rw [ih hnr]
      have hnot : ¬ n < r := Nat.not_lt.mpr hnr
      simp only [List.map_cons, List.map_nil, List.sum_cons, List.sum_nil, hnot,
        if_false, ite_false]
      ring

theorem arraySplitSizes_sum (l k : Nat) (hk : 0 < k) : (arraySplitSizes l k).sum = l := by
  unfold arraySplitSizes
  rw [sum_range_if (l % k) (l / k) k (Nat.le_of_lt (Nat.mod_lt l hk))]
  exact Nat.div_add_mod l k

theorem partitionBatches_length {α : Type u} (xs : List α) :
    (partitionBatches xs).length = xs.length / 5000 + 1 := by
  unfold partitionBatches arraySplit
  rw [chunksOfSizes_length, arraySplitSizes_length]

theorem partitionBatches_sum_length {α : Type u} (xs : List α) :
    ((partitionBatches xs).map List.length).sum = xs.length := by
  unfold partitionBatches arraySplit
  rw [chunksOfSizes_sum_length, arraySplitSizes_sum _ _ (Nat.succ_pos _)]
  exact Nat.min_self _

/-! ## Claims -/

/-- C1: For every record produced by the Geography Normalizer,
`block_geoid` is non-null exactly when all four FIPS fragments are
present; when non-null it equals the concatenation of the state, county,
tract and block fragments zero-padded to widths 2, 3, 6, 4, and — when no
fragment exceeds its target width — its length is 15. -/
theorem C1_block_geoid (r : RespRow) :
    ((normalize r).block_geoid.isSome ↔
      (r.statefp.isSome ∧ r.countyfp.isSome ∧ r.tract.isSome ∧ r.block.isSome)) ∧
    (∀ s c t b : Nat, r.statefp = some s → r.countyfp = some c →
      r.tract = some t → r.block = some b →
      (normalize r).block_geoid =
        some (zfill 2 (toString s) ++ zfill 3 (toString c) ++
              zfill 6 (toString t) ++ zfill 4 (toString b)) ∧
      ((toString s).length ≤ 2 → (toString c).length ≤ 3 →
       (toString t).length ≤ 6 → (toString b).length ≤ 4 →
       ∀ g : String, (normalize r).block_geoid = some g → g.length = 15)) := by
  constructor
  · cases hs : r.statefp <;> cases hc : r.countyfp <;> cases ht : r.tract <;>
      cases hb : r.block <;>
      simp [normalize, padFrag, strConcat, hs, hc, ht, hb]
  · intro s c t b hs hc ht hb
    have heq : (normalize r).block_geoid =
        some (zfill 2 (toString s) ++ zfill 3 (toString c) ++
              zfill 6 (toString t) ++ zfill 4 (toString b)) := by
      simp [normalize, padFrag, strConcat, hs, hc, ht, hb]
    refine ⟨heq, fun h2 h3 h6 h4 g hg => ?_⟩
    rw [heq] at hg
    have hgv := Option.some.inj hg
    subst hgv
    rw [String.length_append, String.length_append, String.length_append,
      zfill_length_of_le h2, zfill_length_of_le h3,
      zfill_length_of_le h6, zfill_length_of_le h4]

/-- Witness for C1 at the spec's end-to-end example: state 26, county 65,
tract 1, block 2. -/
theorem C1_witness :
    (normalize respMatched).block_geoid =
      some (zfill 2 (toString (26 : Nat)) ++ zfill 3 (toString (65 : Nat)) ++
            zfill 6 (toString (1 : Nat)) ++ zfill 4 (toString (2 : Nat))) ∧
    ∀ g : String, (normalize respMatched).block_geoid = some g → g.length = 15 := by
  have h := (C1_block_geoid respMatched).2 26 65 1 2 rfl rfl rfl rfl
  exact ⟨h.1, h.2 (by decide) (by decide) (by decide) (by decide)⟩

/-- C2 (amended): for a candidate set of size `n` and the per-call limit
5000, the Batch Partitioner produces exactly `n / 5000 + 1` batches (one
more than `ceil(n / 5000)` whenever 5000 divides `n`, including `n = 0`,
where a single empty batch is produced) and the batch sizes sum to `n`. -/
theorem C2_partition {α : Type u} (xs : List α) :
    (partitionBatches xs).length = xs.length / 5000 + 1 ∧
      ((partitionBatches xs).map List.length).sum = xs.length :=
  ⟨partitionBatches_length xs, partitionBatches_sum_length xs⟩

/-- C2 counterexample: for `n = 0` the partitioner produces one (empty)
batch, not the zero batches the claim requires. -/
theorem C2_counterexample :
    (partitionBatches ([] : List Nat)).length = 1 ∧
      ¬ (partitionBatches ([] : List Nat)).length = 0 := by
  decide

/-- C5 (amended): the Delta Selector recovers by falling back to the
select-all query exactly when the delta query fails with a failure of the
`ProgrammingError` class — which contains "relation does not exist" but
also undefined-column and SQL-syntax failures; every failure outside that
class is fatal and aborts the run. -/
theorem C5_delta_fallback (e : DbError) (allQ : Except DbError DataFrame) :
    deltaSelect (Except.error e) allQ =
        (if isProgrammingError e then allQ else Except.error e) ∧
      isProgrammingError DbError.relationDoesNotExist = true ∧
      (∀ df : DataFrame, deltaSelect (Except.ok df) allQ = Except.ok df) :=
  ⟨rfl, rfl, fun _ => rfl⟩

/-- C5 counterexample: an undefined-column failure does not indicate that
the geocoded target table is missing, yet the code recovers from it by
falling back to the select-all result instead of aborting. -/
theorem C5_counterexample :
    deltaSelect (Except.error DbError.undefinedColumn)
        (Except.ok { cols := [], rows := [] }) =
        Except.ok { cols := [], rows := [] } ∧
      ¬ DbError.undefinedColumn = DbError.relationDoesNotExist :=
  ⟨rfl, by decide⟩

theorem processBatch_no_date (service : DataFrame → DataFrame)
    (df : DataFrame) (h : df.cols.contains "date" = false) :
    processBatch service df = Except.error "KeyError: date" := by
  unfold processBatch dropCol
  rw [h]
  rfl

theorem geocodePhase_always_fails (service : DataFrame → DataFrame)
    (rows : List (List (String × String))) :
    geocodePhase service { cols := queryColumns, rows := rows } =
      Except.error "KeyError: date" := by
  show (partitionBatches (renameCols renameMap ⟨queryColumns, rows⟩).rows).mapM
      (fun batchRows => processBatch service
        { cols := (renameCols renameMap (⟨queryColumns, rows⟩ : DataFrame)).cols
          rows := batchRows }) =
    Except.error "KeyError: date"
  cases hb : partitionBatches (renameCols renameMap (⟨queryColumns, rows⟩ : DataFrame)).rows with
  | nil =>
    exfalso
    have hlen := partitionBatches_length
      (renameCols renameMap (⟨queryColumns, rows⟩ : DataFrame)).rows
    rw [hb] at hlen
    exact Nat.succ_ne_zero _ hlen.symm
  | cons b bs =>
    rw [List.mapM_cons]
    have hcols : (DataFrame.mk (renameCols renameMap (⟨queryColumns, rows⟩ : DataFrame)).cols
        b).cols.contains "date" = false := rfl
    rw [processBatch_no_date service _ hcols]
    rfl

/-- C7: the Geocode Submitter never strips a `date` field and never
reaches the re-merge: the dataframe coming out of the source queries
names the edition column `year`, so `r.drop("date", axis=1)` raises
`KeyError: 'date'` on the very first batch.  Evaluated at a concrete
one-row delta-selection result (and the identity stand-in for the
external service, which is never called). -/
theorem C7_keyerror_date :
    geocodePhase (fun df => df) exampleQueryResult =
      Except.error "KeyError: date" :=
  geocodePhase_always_fails (fun df => df) exampleQueryResult.rows

/-- C6: a geocode response carrying no geography fields (an unmatched
address) yields a record with `block_geoid = null` and `geom = null`, and
such a record still passes `EmployerGeo` schema validation. -/
theorem C6_unmatched (r : RespRow) (hs : r.statefp = none) (hc : r.countyfp = none)
    (ht : r.tract = none) (hb : r.block = none)
    (hlat : r.lat = none) (hlon : r.lon = none) :
    (normalize r).block_geoid = none ∧ (normalize r).geom = none ∧
      employerGeoValidate [normalize r] = true := by
  refine ⟨?_, ?_, ?_⟩ <;>
    simp [normalize, padFrag, strConcat, points_from_xy, employerGeoValidate,
      employerGeoValid, correct_len_block, hs, hc, ht, hb, hlat, hlon]

/-- Witness for C6 at a concrete unmatched response. -/
theorem C6_witness :
    (normalize respUnmatched).block_geoid = none ∧
      (normalize respUnmatched).geom = none ∧
      employerGeoValidate [normalize respUnmatched] = true :=
  C6_unmatched respUnmatched rfl rfl rfl rfl rfl rfl

/-- C3: in every run of the shared pipeline tail, whenever the data write
occurs the event trace is exactly audit-write, audit-commit, data-write —
the audit transaction commits strictly before the data-write transaction
begins — and if the audit write fails the data write never occurs. -/
theorem C3_audit_before_data (valid auditOk metadataOnly : Bool) :
    (Event.dataWrite ∈ (pipelineTail valid auditOk metadataOnly).2 →
      (pipelineTail valid auditOk metadataOnly).2 =
        [Event.auditWrite, Event.auditCommit, Event.dataWrite]) ∧
    (auditOk = false →
      Event.dataWrite ∉ (pipelineTail valid auditOk metadataOnly).2) := by
  cases valid <;> cases auditOk <;> cases metadataOnly <;> decide

/-- Witness for C3: a full run commits the audit before the data write,
and a run whose audit write fails performs no data write. -/
theorem C3_witness :
    (pipelineTail true true false).2 =
        [Event.auditWrite, Event.auditCommit, Event.dataWrite] ∧
      Event.dataWrite ∉ (pipelineTail true false false).2 :=
  ⟨(C3_audit_before_data true true false).1 (by decide),
   (C3_audit_before_data true false false).2 rfl⟩

/-- C4: a dataset that fails `EmployerGeo` schema validation makes the
run return the distinguished error outcome with an empty event trace —
no audit record and no data write, so zero rows are persisted. -/
theorem C4_fail_closed (rows : List GeocodedRecord) (auditOk metadataOnly : Bool)
    (h : employerGeoValidate rows = false) :
    geocodeRunTail rows auditOk metadataOnly = (RunResult.validationFailed, []) := by
  unfold geocodeRunTail pipelineTail
  rw [h]
  rfl

/-- Witness for C4: a dataset with one row whose `block_geoid` has 14
characters is rejected and nothing is written. -/
theorem C4_witness :
    employerGeoValidate [shortGeoidRecord] = false ∧
      geocodeRunTail [shortGeoidRecord] true false =
        (RunResult.validationFailed, []) :=
  ⟨by decide, C4_fail_closed [shortGeoidRecord] true false (by decide)⟩

/-- C8: a run in metadata-only mode in which validation and the audit
write succeed completes successfully, writes and commits the audit
record, and performs no data write — the target table is untouched. -/
theorem C8_metadata_only (valid auditOk : Bool)
    (hv : valid = true) (ha : auditOk = true) :
    pipelineTail valid auditOk true =
        (RunResult.completed, [Event.auditWrite, Event.auditCommit]) ∧
      Event.dataWrite ∉ (pipelineTail valid auditOk true).2 := by
  subst hv
  subst ha
  decide

/-- Witness for C8 at concrete flags. -/
theorem C8_witness :
    pipelineTail true true true =
        (RunResult.completed, [Event.auditWrite, Event.auditCommit]) ∧
      Event.dataWrite ∉ (pipelineTail true true true).2 :=
  C8_metadata_only true true rfl rfl

theorem loadCounty_map_id (rows : List RawEmployer) :
    (loadCounty rows).map Employer.id = List.range rows.length := by
  unfold loadCounty
  rw [List.map_map]
  have hcomp : (Employer.id ∘ fun p : Nat × RawEmployer => cleanEmployer p.1 p.2)
      = Prod.fst := rfl
  rw [hcomp, List.enum_map_fst]

theorem le_sum_of_mem {a : Nat} {l : List Nat} (h : a ∈ l) : a ≤ l.sum :=
  List.single_le_sum (fun x _ => Nat.zero_le x) a h

theorem two_le_sum :
    ∀ (l : List Nat) (i j : Nat) (hi : i < l.length) (hj : j < l.length),
      i ≠ j → 1 ≤ l[i] → 1 ≤ l[j] → 2 ≤ l.sum := by
  intro l
  induction l with
  | nil => intro i j hi; exact absurd hi (Nat.not_lt_zero i)
  | cons a t ih =>
    intro i j hi hj hne h1 h2
    cases i with
    | zero =>
      cases j with
      | zero => exact absurd rfl hne
      | succ m =>
        rw [List.getElem_cons_zero] at h1
        rw [List.getElem_cons_succ] at h2
        have hmlt : m < t.length := Nat.lt_of_succ_lt_succ hj
        have hm : t[m] ≤ t.sum := le_sum_of_mem (List.getElem_mem hmlt)
        simp only [List.sum_cons]
        omega
    | succ n =>
      cases j with
      | zero =>
        rw [List.getElem_cons_zero] at h2
        rw [List.getElem_cons_succ] at h1
        have hnlt : n < t.length := Nat.lt_of_succ_lt_succ hi
        have hn : t[n] ≤ t.sum := le_sum_of_mem (List.getElem_mem hnlt)
        simp only [List.sum_cons]
        omega
      | succ m =>
        have hrec := ih n m (Nat.lt_of_succ_lt_succ hi) (Nat.lt_of_succ_lt_succ hj)
          (fun hnm => hne (congrArg Nat.succ hnm))
          (by rwa [List.getElem_cons_succ] at h1)
          (by rwa [List.getElem_cons_succ] at h2)
        simp only [List.sum_cons]
        omega

/-- C9: the id of each loaded employer is the per-worksheet row index,
restarting at 0 for every county sheet, so in every run in which two
distinct county worksheets are non-empty the concatenated dataset
contains duplicate id values. -/
theorem C9_duplicate_ids (wb : String → List RawEmployer) (c1 c2 : String)
    (h1 : c1 ∈ counties) (h2 : c2 ∈ counties) (hne : c1 ≠ c2)
    (hw1 : wb c1 ≠ []) (hw2 : wb c2 ≠ []) :
    ¬ ((loadAll wb).map Employer.id).Nodup := by
  intro hnd
  have hids : (loadAll wb).map Employer.id
      = (counties.map (fun c => List.range (wb c).length)).flatten := by
    unfold loadAll
    rw [List.map_flatten, List.map_map]
    congr 1
    apply List.map_congr_left
    intro c _
    exact loadCounty_map_id (wb c)
  have hcount : 2 ≤ ((loadAll wb).map Employer.id).count 0 := by
    rw [hids, List.count_flatten, List.map_map]
    obtain ⟨i, hgi⟩ := List.mem_iff_get.mp h1
    obtain ⟨j, hgj⟩ := List.mem_iff_get.mp h2
    have hlen : (counties.map
        ((List.count 0) ∘ fun c => List.range (wb c).length)).length
        = counties.length := List.length_map _ _
    refine two_le_sum _ i.1 j.1 (by rw [hlen]; exact i.isLt)
      (by rw [hlen]; exact j.isLt) ?_ ?_ ?_
    · intro hij
      exact hne (by rw [← hgi, ← hgj]; exact congrArg counties.get (Fin.ext hij))
    · rw [List.getElem_map]
      have hc : counties[i.1] = c1 := by rw [← hgi]; rfl
      rw [hc]
      have hpos : (0 : Nat) ∈ List.range (wb c1).length :=
        List.mem_range.mpr (List.length_pos.mpr hw1)
      exact List.count_pos_iff.mpr hpos
    · rw [List.getElem_map]
      have hc : counties[j.1] = c2 := by rw [← hgj]; rfl
      rw [hc]
      have hpos : (0 : Nat) ∈ List.range (wb c2).length :=
        List.mem_range.mpr (List.length_pos.mpr hw2)
      exact List.count_pos_iff.mpr hpos
  have hle := List.nodup_iff_count_le_one.mp hnd 0
  omega

/-- Witness for C9: a workbook whose eight sheets each hold one row
produces ids [0, 0, ..., 0]. -/
theorem C9_witness : ¬ ((loadAll wbOneRowEach).map Employer.id).Nodup :=
  C9_duplicate_ids wbOneRowEach "Wayne" "Oakland" (by decide) (by decide)
    (by decide) (List.cons_ne_nil _ _) (List.cons_ne_nil _ _)

/-- C10: the employers schema validator accepts a dataset only if the
number of names equal to "NAME NOT AVAILABLE" is strictly between 0 and
100: whenever that count is 0 (every employer has a real name) or at
least 100, validation fails and the run returns the error outcome with no
audit record and no data write — nothing is persisted. -/
theorem C10_name_gate (rows : List Employer)
    (h : (rows.map Employer.name).count "NAME NOT AVAILABLE" = 0 ∨
         100 ≤ (rows.map Employer.name).count "NAME NOT AVAILABLE") :
    milmiEmployersValidate rows = false ∧
      ∀ auditOk metadataOnly : Bool,
        employersRunTail rows auditOk metadataOnly =
          (RunResult.validationFailed, []) := by
  have hname : no_over_filling__name (rows.map Employer.name) = false := by
    unfold no_over_filling__name
    rcases h with h | h <;> exact decide_eq_false (by omega)
  have hval : milmiEmployersValidate rows = false := by
    unfold milmiEmployersValidate
    rw [hname]
    rfl
  refine ⟨hval, fun auditOk metadataOnly => ?_⟩
  unfold employersRunTail pipelineTail
  rw [hval]
  rfl

/-- Witness for C10: a dataset in which every employer has a real name
(zero fill-ins) is rejected and nothing is persisted. -/
theorem C10_witness :
    milmiEmployersValidate (loadAll wbOneRowEach) = false ∧
      ∀ auditOk metadataOnly : Bool,
        employersRunTail (loadAll wbOneRowEach) auditOk metadataOnly =
          (RunResult.validationFailed, []) :=
  C10_name_gate (loadAll wbOneRowEach) (Or.inl (by decide))

end Milmi
